import Mathlib

/-!
# Gossamer `dot/rpc/modules/state.go` — shallow embedding and verification

This file embeds the State RPC module of gossamer (`dot/rpc/modules/state.go`)
in Lean 4 and proves properties of its operations.

Modelling conventions:

* Go byte slices (`[]byte`) are `List Nat` (each element a byte value).
  A *nil* slice returned by a storage lookup is distinguished from an empty
  one with `Option (List Nat)`: `none` is Go `nil` (key absent), `some []`
  is a present key with a zero-length value.  Go's `len` on either is `goLen`.
* `common.Hash` values are opaque and modelled as `List Nat`; a `*common.Hash`
  (nullable pointer) is `Option Hash`.
* The Go methods mutate a caller-supplied response struct and return an
  `error`.  They are modelled as pure functions taking the initial response
  value and returning `Option Err × Response`: the first component is the Go
  error return (`none` = nil error) and the second is the final state of the
  response object.
* The unused `*http.Request` parameter of every method is omitted.
* Collaborator interfaces (`StorageAPI`, `CoreAPI`) are records of functions;
  code behind those interfaces is not part of the module source and, where a
  claim depends on it, is modelled from the specification (marked
  `Modelled from the spec:` below).
-/

/-- Go `byte` values. -/
abbrev GoByte := Nat

/-- `common.Hash`, treated as an opaque identifier. -/
abbrev GoHash := List GoByte

/-- Error taxonomy of the module's collaborators (spec §7).  `other` covers
any further backend error value; the module propagates errors unmodified. -/
inductive Err where
  | unknownBlock
  | storageUnavailable
  | runtimeUnavailable
  | decodeError
  | other (msg : String)
  deriving DecidableEq, Repr

/-! ## Hex encoding and decoding helpers -/

/-- Lower-case hex digit for a value `0 ≤ n < 16` (as `hex.EncodeToString`). -/
def hexDigit (n : Nat) : Char :=
  if n < 10 then Char.ofNat (48 + n) else Char.ofNat (87 + n)

/-- Two lower-case hex digits of one byte. -/
def byteToHex (b : GoByte) : List Char :=
  [hexDigit (b / 16 % 16), hexDigit (b % 16)]

/-- Go `hex.EncodeToString`: lower-case hex of a byte slice. -/
def hexEncodeToString (bs : List GoByte) : String :=
  String.mk ((bs.map byteToHex).flatten)

/-- `common.BytesToHex`: `"0x"` prefix plus lower-case hex. -/
def BytesToHex (bs : List GoByte) : String :=
  "0x" ++ hexEncodeToString bs

/-- Value of one hex character, upper or lower case. -/
def hexCharVal (c : Char) : Option Nat :=
  if 48 ≤ c.toNat ∧ c.toNat ≤ 57 then some (c.toNat - 48)
  else if 97 ≤ c.toNat ∧ c.toNat ≤ 102 then some (c.toNat - 87)
  else if 65 ≤ c.toNat ∧ c.toNat ≤ 70 then some (c.toNat - 55)
  else none

/-- Decode an even-length run of hex characters into bytes; `none` on an odd
length or a non-hex character. -/
def hexPairsToBytes : List Char → Option (List GoByte)
  | [] => some []
  | [_] => none
  | c1 :: c2 :: rest =>
    match hexCharVal c1, hexCharVal c2, hexPairsToBytes rest with
    | some hi, some lo, some bs => some ((16 * hi + lo) :: bs)
    | _, _, _ => none

/-- Decode a wire hex string: a `"0x"` prefix followed by an even-length run
of hex digits; `none` on any malformed input. -/
def decodeWireHex (s : String) : Option (List GoByte) :=
  match s.toList with
  | '0' :: 'x' :: rest => hexPairsToBytes rest
  | _ => none

/-- Whether a string is valid wire hex. -/
def isValidWireHex (s : String) : Bool :=
  (decodeWireHex s).isSome

/-- Modelled from the spec: `common.HexToBytes` lives outside the module
source.  Spec §4.2 step 1 and §7: the caller-supplied key is decoded from its
`0x`-prefixed wire hex encoding; the module ignores the decode error, and "a
malformed hex key degrades to an empty byte key rather than failing the
request".  This function is the composite `reqBytes, _ := common.HexToBytes(s)`
as the module observes it. -/
def hexToBytesOrEmpty (s : String) : List GoByte :=
  (decodeWireHex s).getD []

/-- Go `len` of a possibly-nil byte slice. -/
def goLen : Option (List GoByte) → Nat
  | none => 0
  | some v => v.length

/-- The bytes of a possibly-nil byte slice (Go reads a nil slice as empty). -/
def goBytes : Option (List GoByte) → List GoByte
  | none => []
  | some v => v

/-! ## Collaborator interfaces -/

/-- The storage collaborator of the module (the subset of `StorageAPI` the
module calls): the Block Resolver `GetStateRootFromBlock`, the full
enumeration `Entries`, and the point lookup `GetStorage` at an optional state
root (`none` = latest).  `Entries` is returned as a sequence of (key, value)
pairs in the Storage Provider's enumeration order (spec §6). -/
structure StorageAPI where
  GetStateRootFromBlock : GoHash → Except Err GoHash
  Entries : Option GoHash → Except Err (List (List GoByte × List GoByte))
  GetStorage : Option GoHash → List GoByte → Except Err (Option (List GoByte))

/-- Modelled from the spec: `StorageAPI.GetStorageByBlockHash` is repository
code outside the module source.  Per spec §4.2 steps 2–3 a historical lookup
resolves the block reference to a state snapshot via the Block Resolver
(§4.1), propagating a resolution failure (`UnknownBlock`) as the error, and
then fetches the key at that snapshot. -/
def StorageAPI.GetStorageByBlockHash (api : StorageAPI) (bhash : GoHash)
    (key : List GoByte) : Except Err (Option (List GoByte)) :=
  match api.GetStateRootFromBlock bhash with
  | .error e => .error e
  | .ok root => api.GetStorage (some root) key

/-! ## Request and response types (DTOs of `state.go`) -/

/-- `StateStorageRequest`. -/
structure StateStorageRequest where
  Key : String
  Bhash : Option GoHash

/-- `StateStorageHashRequest`. -/
structure StateStorageHashRequest where
  Key : String
  Bhash : Option GoHash

/-- `StateStorageSizeRequest`. -/
structure StateStorageSizeRequest where
  Key : String
  Bhash : Option GoHash

/-- `StatePairRequest` (Go field `Prefix` holds the hex-encoded prefix). -/
structure StatePairRequest where
  KeyPrefix : String
  Bhash : Option GoHash

/-- `StateStorageResponse`. -/
structure StateStorageResponse where
  StorageValue : String := ""
  deriving DecidableEq, Repr

/-- `StateStorageHashResponse`. -/
structure StateStorageHashResponse where
  StorageHash : String := ""
  deriving DecidableEq, Repr

/-- `StateStorageSizeResponse` (`StorageEntrySize` is a Go `uint64`; slice
lengths are nonnegative and far below `2^64`, so `Nat` is exact). -/
structure StateStorageSizeResponse where
  StorageEntrySize : Nat := 0
  deriving DecidableEq, Repr

/-- `StatePairResponse`: the accumulated `keys` field; each element is a
2-element `[key, value]` list of hex strings. -/
structure StatePairResponse where
  keys : List (List String) := []
  deriving DecidableEq, Repr

/-! ## Runtime / metadata collaborator -/

/-- `runtime.Version`: the fields of the runtime version record that
`GetRuntimeVersion` copies (byte-string names are modelled as strings,
matching Go's `string(...)` conversion; version numbers are `int32`, only
copied, never computed with). -/
structure RuntimeVersionData where
  Spec_name : String
  Impl_name : String
  Authoring_version : Int
  Spec_version : Int
  Impl_version : Int
  deriving DecidableEq, Repr

/-- `runtime.API_Item`: an API identifier (bytes) and its version. -/
structure API_Item where
  Name : List GoByte
  Ver : Int
  deriving DecidableEq, Repr

/-- `runtime.VersionAPI`: the value returned by `CoreAPI.GetRuntimeVersion`. -/
structure VersionAPI where
  RuntimeVersion : RuntimeVersionData
  API : List API_Item
  deriving DecidableEq, Repr

/-- The runtime collaborator of the module (the subset of `CoreAPI` the
module calls). -/
structure CoreAPI where
  GetRuntimeVersionLatest : Except Err VersionAPI
  GetMetadata : Option GoHash → Except Err (List GoByte)

/-- Modelled from the spec: the implementation of `CoreAPI.GetRuntimeVersion`
is outside the module source.  Spec §4.4: the provider answers "ignoring the
BlockReference (… the source always returns the latest version regardless of
the requested block)". -/
def CoreAPI.GetRuntimeVersion (api : CoreAPI) (_bhash : Option GoHash) :
    Except Err VersionAPI :=
  api.GetRuntimeVersionLatest

/-- Modelled from the spec: `scale.Decode(metadata, []byte{})` lives outside
the module source.  Spec §4.4: GetMetadata "applies a length-prefixed
byte-sequence decode step to the returned blob"; this is the SCALE byte-array
decode, a compact-encoded length prefix followed by that many bytes.  Any
blob that does not carry a complete prefix and payload is a decode failure
(the unbounded big-integer length mode is likewise treated as a failure; it
cannot describe a byte sequence that fits in memory). -/
def scaleDecodeByteArray (b : List GoByte) : Except Err (List GoByte) :=
  match b with
  | [] => .error .decodeError
  | b0 :: rest =>
    match b0 % 4 with
    | 0 =>
      let len := b0 / 4
      if rest.length < len then .error .decodeError else .ok (rest.take len)
    | 1 =>
      match rest with
      | b1 :: rest1 =>
        let len := (b0 + 256 * b1) / 4
        if rest1.length < len then .error .decodeError else .ok (rest1.take len)
      | [] => .error .decodeError
    | 2 =>
      match rest with
      | b1 :: b2 :: b3 :: rest3 =>
        let len := (b0 + 256 * b1 + 65536 * b2 + 16777216 * b3) / 4
        if rest3.length < len then .error .decodeError else .ok (rest3.take len)
      | _ => .error .decodeError
    | _ => .error .decodeError

/-! ## The module and its operations -/

/-- `StateModule` (the unused `networkAPI` is kept as a unit field). -/
structure StateModule where
  networkAPI : Unit := ()
  storageAPI : StorageAPI
  coreAPI : CoreAPI

/-- `StateModule.GetStorage` (state.go lines 288–314): decode the key
(tolerating malformed hex), fetch by block hash or from latest, propagate a
lookup error with the response untouched; a non-empty result is hex-encoded
into `StorageValue`, otherwise the response is overwritten with its zero
value. -/
def StateModule.GetStorage (sm : StateModule) (req : StateStorageRequest)
    (res : StateStorageResponse) : Option Err × StateStorageResponse :=
  let reqBytes := hexToBytesOrEmpty req.Key
  let fetched : Except Err (Option (List GoByte)) :=
    match req.Bhash with
    | some bhash => sm.storageAPI.GetStorageByBlockHash bhash reqBytes
    | none => sm.storageAPI.GetStorage none reqBytes
  match fetched with
  | .error e => (some e, res)
  | .ok item =>
    if 0 < goLen item then
      (none, { res with StorageValue := BytesToHex (goBytes item) })
    else
      (none, {})

/-- Modelled from the spec: `common.BytesToHash(item).String()` lives outside
the module source.  Spec §4.2 step 4: `GetStorageHash` computes "a content
hash over the bytes" and returns "its canonical string form"; §9 leaves the
hash derivation itself open.  We model it as a fixed deterministic canonical
string of a 32-byte value derived from the bytes (right-aligned,
zero-padded); the claims depend only on it being a deterministic function of
the value bytes. -/
def BytesToHashString (v : List GoByte) : String :=
  let b := if 32 < v.length then v.drop (v.length - 32) else v
  BytesToHex (List.replicate (32 - b.length) 0 ++ b)

/-- `StateModule.GetStorageHash` (state.go lines 319–346). -/
def StateModule.GetStorageHash (sm : StateModule) (req : StateStorageHashRequest)
    (res : StateStorageHashResponse) : Option Err × StateStorageHashResponse :=
  let reqBytes := hexToBytesOrEmpty req.Key
  let fetched : Except Err (Option (List GoByte)) :=
    match req.Bhash with
    | some bhash => sm.storageAPI.GetStorageByBlockHash bhash reqBytes
    | none => sm.storageAPI.GetStorage none reqBytes
  match fetched with
  | .error e => (some e, res)
  | .ok item =>
    if 0 < goLen item then
      (none, { res with StorageHash := BytesToHashString (goBytes item) })
    else
      (none, {})

/-- `StateModule.GetStorageSize` (state.go lines 351–378). -/
def StateModule.GetStorageSize (sm : StateModule) (req : StateStorageSizeRequest)
    (res : StateStorageSizeResponse) : Option Err × StateStorageSizeResponse :=
  let reqBytes := hexToBytesOrEmpty req.Key
  let fetched : Except Err (Option (List GoByte)) :=
    match req.Bhash with
    | some bhash => sm.storageAPI.GetStorageByBlockHash bhash reqBytes
    | none => sm.storageAPI.GetStorage none reqBytes
  match fetched with
  | .error e => (some e, res)
  | .ok item =>
    if 0 < goLen item then
      (none, { StorageEntrySize := goLen item })
    else
      (none, {})

/-- `StateModule.GetPairs` (state.go lines 184–222): resolve the optional
block reference via the Block Resolver; an empty decoded prefix enumerates
all pairs (appending hex-encoded `[key, value]` entries in the provider's
order), a non-empty one performs an exact-key lookup, appending the single
pair when the provider returns a non-nil value and resetting `keys` to the
empty list when it returns nil. -/
def StateModule.GetPairs (sm : StateModule) (req : StatePairRequest)
    (res : StatePairResponse) : Option Err × StatePairResponse :=
  let reqBytes := hexToBytesOrEmpty req.KeyPrefix
  let rootRes : Except Err (Option GoHash) :=
    match req.Bhash with
    | some bhash =>
      match sm.storageAPI.GetStateRootFromBlock bhash with
      | .error e => .error e
      | .ok root => .ok (some root)
    | none => .ok none
  match rootRes with
  | .error e => (some e, res)
  | .ok stateRootHash =>
    if reqBytes.length < 1 then
      match sm.storageAPI.Entries stateRootHash with
      | .error e => (some e, res)
      | .ok pairs =>
        (none, { keys := res.keys ++
          pairs.map (fun kv => [BytesToHex kv.1, BytesToHex kv.2]) })
    else
      match sm.storageAPI.GetStorage stateRootHash reqBytes with
      | .error e => (some e, res)
      | .ok resI =>
        match resI with
        | some v => (none, { keys := res.keys ++ [[BytesToHex reqBytes, BytesToHex v]] })
        | none => (none, { keys := [] })

/-! ## Metadata and runtime-version operations -/

/-- `StateRuntimeMetadataQuery`. -/
structure StateRuntimeMetadataQuery where
  Bhash : Option GoHash

/-- `StateRuntimeVersionRequest`. -/
structure StateRuntimeVersionRequest where
  Bhash : Option GoHash

/-- `StateMetadataResponse`. -/
structure StateMetadataResponse where
  Metadata : String := ""
  deriving DecidableEq, Repr

/-- `StateRuntimeVersionResponse` (`Apis` entries are the
(hex-encoded name, version) pairs built by `convertAPIs`). -/
structure StateRuntimeVersionResponse where
  SpecName : String := ""
  ImplName : String := ""
  AuthoringVersion : Int := 0
  SpecVersion : Int := 0
  ImplVersion : Int := 0
  Apis : List (String × Int) := []
  deriving DecidableEq, Repr

/-- `convertAPIs` (state.go lines 400–407): hex-encode each API name with a
`"0x"` prefix, pairing it with its version, preserving order. -/
def convertAPIs (inp : List API_Item) : List (String × Int) :=
  inp.map (fun item => ("0x" ++ hexEncodeToString item.Name, item.Ver))

/-- `StateModule.GetMetadata` (state.go lines 256–266): fetch the encoded
metadata blob, propagate the provider error; otherwise run the SCALE
byte-array decode, store the hex encoding of the decoded bytes (no bytes on
failure) into the response and return the decode error (nil on success). -/
def StateModule.GetMetadata (sm : StateModule) (req : StateRuntimeMetadataQuery)
    (res : StateMetadataResponse) : Option Err × StateMetadataResponse :=
  match sm.coreAPI.GetMetadata req.Bhash with
  | .error e => (some e, res)
  | .ok metadata =>
    match scaleDecodeByteArray metadata with
    | .error e => (some e, { Metadata := BytesToHex [] })
    | .ok decoded => (none, { Metadata := BytesToHex decoded })

/-- `StateModule.GetRuntimeVersion` (state.go lines 271–285).  The request
pointer may be nil (the module itself passes nil from
`SubscribeRuntimeVersion`), so it is an `Option`; the overall `none` result
models the Go nil-pointer dereference panic of `req.Bhash` on a nil
request. -/
def StateModule.GetRuntimeVersion (sm : StateModule)
    (req : Option StateRuntimeVersionRequest) (res : StateRuntimeVersionResponse) :
    Option (Option Err × StateRuntimeVersionResponse) :=
  match req with
  | none => none
  | some r =>
    some (match sm.coreAPI.GetRuntimeVersion r.Bhash with
      | .error e => (some e, res)
      | .ok rtVersion =>
        (none,
          { SpecName := rtVersion.RuntimeVersion.Spec_name
            ImplName := rtVersion.RuntimeVersion.Impl_name
            AuthoringVersion := rtVersion.RuntimeVersion.Authoring_version
            SpecVersion := rtVersion.RuntimeVersion.Spec_version
            ImplVersion := rtVersion.RuntimeVersion.Impl_version
            Apis := convertAPIs rtVersion.API }))

/-! ## Unimplemented operations and `SubscribeRuntimeVersion` -/

/-- `StateCallRequest`. -/
structure StateCallRequest where
  Method : String
  Data : List GoByte
  Block : Option GoHash

/-- `StateChildStorageRequest`. -/
structure StateChildStorageRequest where
  ChildStorageKey : List GoByte
  Key : List GoByte
  Block : Option GoHash

/-- `StateStorageKeyRequest`. -/
structure StateStorageKeyRequest where
  Key : List GoByte
  Block : Option GoHash

/-- `StateStorageQueryRangeRequest` (`Keys` is a slice of hash pointers). -/
structure StateStorageQueryRangeRequest where
  Keys : List (Option GoHash)
  StartBlock : Option GoHash
  Block : Option GoHash

/-- `StateCallResponse` (its single field has the same name in Go). -/
structure StateCallResponse where
  stateCallResponse : List GoByte := []
  deriving DecidableEq, Repr

/-- `StateKeysResponse`. -/
abbrev StateKeysResponse := List (List GoByte)

/-- `StateStorageDataResponse`. -/
abbrev StateStorageDataResponse := String

/-- `StateChildStorageResponse`. -/
structure StateChildStorageResponse where
  StorageHash : String := ""
  deriving DecidableEq, Repr

/-- `StateChildStorageSizeResponse`. -/
structure StateChildStorageSizeResponse where
  Size : Nat := 0
  deriving DecidableEq, Repr

/-- `StateStorageKeysResponse`. -/
abbrev StateStorageKeysResponse := List (List GoByte)

/-- `KeyValueOption`. -/
structure KeyValueOption where
  StorageKey : List GoByte
  StorageData : List GoByte
  deriving DecidableEq, Repr

/-- `StorageChangeSetResponse`. -/
structure StorageChangeSetResponse where
  Block : Option GoHash := none
  Changes : List KeyValueOption := []
  deriving DecidableEq, Repr

/-- `StateModule.Call` (state.go lines 225–228): a placeholder with no error
return; the response is left untouched. -/
def StateModule.Call (_sm : StateModule) (_req : StateCallRequest)
    (res : StateCallResponse) : StateCallResponse :=
  res

/-- `StateModule.GetChildKeys` (state.go lines 231–233): placeholder. -/
def StateModule.GetChildKeys (_sm : StateModule) (_req : StateChildStorageRequest)
    (res : StateKeysResponse) : StateKeysResponse :=
  res

/-- `StateModule.GetChildStorage` (state.go lines 236–238): placeholder. -/
def StateModule.GetChildStorage (_sm : StateModule) (_req : StateChildStorageRequest)
    (res : StateStorageDataResponse) : StateStorageDataResponse :=
  res

/-- `StateModule.GetChildStorageHash` (state.go lines 241–243): placeholder. -/
def StateModule.GetChildStorageHash (_sm : StateModule) (_req : StateChildStorageRequest)
    (res : StateChildStorageResponse) : StateChildStorageResponse :=
  res

/-- `StateModule.GetChildStorageSize` (state.go lines 246–248): placeholder. -/
def StateModule.GetChildStorageSize (_sm : StateModule) (_req : StateChildStorageRequest)
    (res : StateChildStorageSizeResponse) : StateChildStorageSizeResponse :=
  res

/-- `StateModule.GetKeys` (state.go lines 251–253): placeholder. -/
def StateModule.GetKeys (_sm : StateModule) (_req : StateStorageKeyRequest)
    (res : StateStorageKeysResponse) : StateStorageKeysResponse :=
  res

/-- `StateModule.QueryStorage` (state.go lines 381–384): placeholder that
returns a nil error and leaves the response untouched. -/
def StateModule.QueryStorage (_sm : StateModule) (_req : StateStorageQueryRangeRequest)
    (res : StorageChangeSetResponse) : Option Err × StorageChangeSetResponse :=
  (none, res)

/-- `StateModule.SubscribeStorage` (state.go lines 396–398): placeholder that
returns a nil error and leaves the response untouched. -/
def StateModule.SubscribeStorage (_sm : StateModule) (_req : StateStorageQueryRangeRequest)
    (res : StorageChangeSetResponse) : Option Err × StorageChangeSetResponse :=
  (none, res)

/-- `StateModule.SubscribeRuntimeVersion` (state.go lines 388–391): forwards
to `GetRuntimeVersion` with a nil request pointer. -/
def StateModule.SubscribeRuntimeVersion (sm : StateModule)
    (_req : StateStorageQueryRangeRequest) (res : StateRuntimeVersionResponse) :
    Option (Option Err × StateRuntimeVersionResponse) :=
  sm.GetRuntimeVersion none res

/-! ## Concrete collaborators for evaluating the operations -/

/-- First-match association lookup, used to build concrete stores. -/
def lookupPairs : List (List GoByte × List GoByte) → List GoByte → Option (List GoByte)
  | [], _ => none
  | (k, v) :: rest, key => if k = key then some v else lookupPairs rest key

/-- A concrete storage collaborator over a fixed pair list; every block
resolves to the state root `[0]`. -/
def mkStorageAPI (pairs : List (List GoByte × List GoByte)) : StorageAPI where
  GetStateRootFromBlock := fun _ => .ok [0]
  Entries := fun _ => .ok pairs
  GetStorage := fun _ key => .ok (lookupPairs pairs key)

/-- A storage collaborator whose Block Resolver fails with `UnknownBlock`. -/
def badResolverAPI : StorageAPI where
  GetStateRootFromBlock := fun _ => .error .unknownBlock
  Entries := fun _ => .ok []
  GetStorage := fun _ _ => .ok none

/-- A concrete runtime version record. -/
def sampleVersion : VersionAPI where
  RuntimeVersion :=
    { Spec_name := "node"
      Impl_name := "gossamer-node"
      Authoring_version := 1
      Spec_version := 2
      Impl_version := 3 }
  API := [{ Name := [1, 2], Ver := 1 }]

/-- A concrete runtime collaborator; its metadata blob is `0x04aa` (compact
length 1, payload byte `0xaa`). -/
def sampleCoreAPI : CoreAPI where
  GetRuntimeVersionLatest := .ok sampleVersion
  GetMetadata := fun _ => .ok [4, 170]

/-- A runtime collaborator returning an empty metadata blob, on which the
SCALE byte-array decode fails. -/
def emptyMetaCoreAPI : CoreAPI where
  GetRuntimeVersionLatest := .ok sampleVersion
  GetMetadata := fun _ => .ok []

/-- A module over an empty store with a working resolver and runtime. -/
def emptyStoreModule : StateModule := ⟨(), mkStorageAPI [], sampleCoreAPI⟩

/-- A module whose store holds key `[42]` with a zero-length value. -/
def presentEmptyModule : StateModule := ⟨(), mkStorageAPI [([42], [])], sampleCoreAPI⟩

/-- A module whose store holds key `[170]` with value `[1, 2, 3]`. -/
def presentModule : StateModule := ⟨(), mkStorageAPI [([170], [1, 2, 3])], sampleCoreAPI⟩

/-- A module whose store holds two pairs, for enumeration. -/
def pairsModule : StateModule :=
  ⟨(), mkStorageAPI [([1], [2]), ([3], [4, 5])], sampleCoreAPI⟩

/-- A runtime collaborator whose metadata fetch fails with `UnknownBlock`. -/
def unknownBlockCoreAPI : CoreAPI where
  GetRuntimeVersionLatest := .ok sampleVersion
  GetMetadata := fun _ => .error .unknownBlock

/-- A module whose resolver and metadata fetch fail with `UnknownBlock`. -/
def badResolverModule : StateModule := ⟨(), badResolverAPI, unknownBlockCoreAPI⟩

/-- A module returning an empty (undecodable) metadata blob. -/
def emptyMetaModule : StateModule := ⟨(), mkStorageAPI [], emptyMetaCoreAPI⟩

/-! ## Claims -/

/-- C1: for every key absent from the store (the lookup the module performs
returns no bytes) and any block reference, `GetStorage`, `GetStorageHash` and
`GetStorageSize` succeed (nil error) and return their response type's zero
value: empty `StorageValue`, zero-value `StorageHash`, `StorageEntrySize`
zero. -/
theorem absent_key_returns_zero_value (sm : StateModule) (key : String)
    (bh : Option GoHash) (res1 : StateStorageResponse)
    (res2 : StateStorageHashResponse) (res3 : StateStorageSizeResponse)
    (h : bh.elim (sm.storageAPI.GetStorage none (hexToBytesOrEmpty key))
      (fun b => sm.storageAPI.GetStorageByBlockHash b (hexToBytesOrEmpty key)) = .ok none) :
    sm.GetStorage ⟨key, bh⟩ res1 = (none, { StorageValue := "" }) ∧
    sm.GetStorageHash ⟨key, bh⟩ res2 = (none, { StorageHash := "" }) ∧
    sm.GetStorageSize ⟨key, bh⟩ res3 = (none, { StorageEntrySize := 0 }) := by
  cases bh <;> simp only [Option.elim] at h <;>
    refine ⟨?_, ?_, ?_⟩ <;>
      simp [StateModule.GetStorage, StateModule.GetStorageHash,
        StateModule.GetStorageSize, h, goLen]

/-- Witness for C1 at an empty store, a present block reference and dirty
initial responses. -/
theorem absent_key_returns_zero_value_witness :
    StateModule.GetStorage emptyStoreModule ⟨"0xab", some [7]⟩ ⟨"dirty"⟩
      = (none, { StorageValue := "" }) ∧
    StateModule.GetStorageHash emptyStoreModule ⟨"0xab", some [7]⟩ ⟨"dirty"⟩
      = (none, { StorageHash := "" }) ∧
    StateModule.GetStorageSize emptyStoreModule ⟨"0xab", some [7]⟩ ⟨9⟩
      = (none, { StorageEntrySize := 0 }) :=
  absent_key_returns_zero_value emptyStoreModule "0xab" (some [7]) ⟨"dirty"⟩ ⟨"dirty"⟩ ⟨9⟩ rfl

/-- C2: when the Block Resolver cannot map a supplied block reference to a
snapshot, every operation taking a reference returns that resolution failure
as the request error with the response object unmodified — and it does so for
*every* behaviour of the storage enumeration and lookup (which are
universally quantified through `sm`), i.e. before any storage lookup can
influence the outcome. -/
theorem resolver_failure_propagates (sm : StateModule) (b : GoHash) (e : Err)
    (p k1 k2 k3 : String) (res0 : StatePairResponse) (res1 : StateStorageResponse)
    (res2 : StateStorageHashResponse) (res3 : StateStorageSizeResponse)
    (resm : StateMetadataResponse)
    (hres : sm.storageAPI.GetStateRootFromBlock b = .error e)
    (hmeta : sm.coreAPI.GetMetadata (some b) = .error e) :
    sm.GetPairs ⟨p, some b⟩ res0 = (some e, res0) ∧
    sm.GetStorage ⟨k1, some b⟩ res1 = (some e, res1) ∧
    sm.GetStorageHash ⟨k2, some b⟩ res2 = (some e, res2) ∧
    sm.GetStorageSize ⟨k3, some b⟩ res3 = (some e, res3) ∧
    sm.GetMetadata ⟨some b⟩ resm = (some e, resm) := by
  refine ⟨?_, ?_, ?_, ?_, ?_⟩ <;>
    simp [StateModule.GetPairs, StateModule.GetStorage, StateModule.GetStorageHash,
      StateModule.GetStorageSize, StateModule.GetMetadata,
      StorageAPI.GetStorageByBlockHash, hres, hmeta]

/-- Witness for C2 at a resolver that fails with `UnknownBlock`. -/
theorem resolver_failure_propagates_witness :
    StateModule.GetPairs badResolverModule ⟨"0x01", some [5]⟩ ⟨[["a"]]⟩
      = (some Err.unknownBlock, ⟨[["a"]]⟩) ∧
    StateModule.GetStorage badResolverModule ⟨"0x01", some [5]⟩ ⟨"v"⟩
      = (some Err.unknownBlock, ⟨"v"⟩) ∧
    StateModule.GetStorageHash badResolverModule ⟨"0x01", some [5]⟩ ⟨"h"⟩
      = (some Err.unknownBlock, ⟨"h"⟩) ∧
    StateModule.GetStorageSize badResolverModule ⟨"0x01", some [5]⟩ ⟨3⟩
      = (some Err.unknownBlock, ⟨3⟩) ∧
    StateModule.GetMetadata badResolverModule ⟨some [5]⟩ ⟨"m"⟩
      = (some Err.unknownBlock, ⟨"m"⟩) :=
  resolver_failure_propagates badResolverModule [5] Err.unknownBlock
    "0x01" "0x01" "0x01" "0x01" ⟨[["a"]]⟩ ⟨"v"⟩ ⟨"h"⟩ ⟨3⟩ ⟨"m"⟩ rfl rfl

/-- C3: for every key present in the store with non-empty value `v`,
`GetStorageSize` succeeds with exactly `v.length` and `GetStorageHash`
succeeds with the canonical hash string of `v`; the hash output is the same
on every call for the same `v` (independent of the initial response). -/
theorem present_key_size_and_hash (sm : StateModule) (key : String) (bh : Option GoHash)
    (v : List GoByte) (res2 res2' : StateStorageHashResponse)
    (res3 : StateStorageSizeResponse)
    (h : bh.elim (sm.storageAPI.GetStorage none (hexToBytesOrEmpty key))
      (fun b => sm.storageAPI.GetStorageByBlockHash b (hexToBytesOrEmpty key)) = .ok (some v))
    (hv : 0 < v.length) :
    sm.GetStorageSize ⟨key, bh⟩ res3 = (none, { StorageEntrySize := v.length }) ∧
    sm.GetStorageHash ⟨key, bh⟩ res2 = (none, { StorageHash := BytesToHashString v }) ∧
    sm.GetStorageHash ⟨key, bh⟩ res2 = sm.GetStorageHash ⟨key, bh⟩ res2' := by
  cases bh <;> simp only [Option.elim] at h <;>
    refine ⟨?_, ?_, ?_⟩ <;>
      simp [StateModule.GetStorageSize, StateModule.GetStorageHash, h, goLen, goBytes, hv]

/-- Witness for C3 at a store holding three bytes at key `0xaa`. -/
theorem present_key_size_and_hash_witness :
    StateModule.GetStorageSize presentModule ⟨"0xaa", none⟩ ⟨0⟩
      = (none, { StorageEntrySize := 3 }) ∧
    StateModule.GetStorageHash presentModule ⟨"0xaa", none⟩ ⟨""⟩
      = (none, { StorageHash := BytesToHashString [1, 2, 3] }) ∧
    StateModule.GetStorageHash presentModule ⟨"0xaa", none⟩ ⟨""⟩
      = StateModule.GetStorageHash presentModule ⟨"0xaa", none⟩ ⟨"other"⟩ :=
  present_key_size_and_hash presentModule "0xaa" none [1, 2, 3] ⟨""⟩ ⟨"other"⟩ ⟨0⟩
    rfl (by decide)

/-- C4: `GetPairs` with an empty-decoding prefix succeeds and returns exactly
one 2-element `[key, value]` entry per stored pair, both hex-encoded with a
`0x` prefix, in the Storage Provider's enumeration order. -/
theorem getPairs_empty_prefix_enumerates (sm : StateModule) (p : String)
    (bh : Option GoHash) (rootOpt : Option GoHash)
    (pairs : List (List GoByte × List GoByte))
    (hp : hexToBytesOrEmpty p = [])
    (hroot : bh.elim (Except.ok none)
      (fun b => (sm.storageAPI.GetStateRootFromBlock b).map some) = .ok rootOpt)
    (hE : sm.storageAPI.Entries rootOpt = .ok pairs) :
    sm.GetPairs ⟨p, bh⟩ ⟨[]⟩ =
      (none, { keys := pairs.map (fun kv => [BytesToHex kv.1, BytesToHex kv.2]) }) := by
  cases bh with
  | none =>
    simp only [Option.elim, Except.ok.injEq] at hroot
    subst hroot
    simp [StateModule.GetPairs, hp, hE]
  | some b =>
    cases hres : sm.storageAPI.GetStateRootFromBlock b with
    | error e => simp [Option.elim, hres, Except.map] at hroot
    | ok root =>
      simp only [Option.elim, hres, Except.map, Except.ok.injEq] at hroot
      subst hroot
      simp [StateModule.GetPairs, hp, hres, hE]

/-- Witness for C4 at a two-pair store and a present block reference. -/
theorem getPairs_empty_prefix_enumerates_witness :
    StateModule.GetPairs pairsModule ⟨"", some [9]⟩ ⟨[]⟩
      = (none, { keys := [["0x01", "0x02"], ["0x03", "0x0405"]] }) :=
  getPairs_empty_prefix_enumerates pairsModule "" (some [9]) (some [0])
    [([1], [2]), ([3], [4, 5])] rfl rfl rfl

/-- C5 counterexample: a key stored with a zero-length value and an absent
key do *not* produce the same response from `GetPairs` with a non-empty
prefix equal to that key: the empty-but-present key yields the single pair
`[["0x2a", "0x"]]` while the absent key yields the empty list. -/
theorem getPairs_empty_value_vs_absent_counterexample :
    StateModule.GetPairs presentEmptyModule ⟨"0x2a", none⟩ ⟨[]⟩
      = (none, { keys := [["0x2a", "0x"]] }) ∧
    StateModule.GetPairs emptyStoreModule ⟨"0x2a", none⟩ ⟨[]⟩
      = (none, { keys := [] }) ∧
    StateModule.GetPairs presentEmptyModule ⟨"0x2a", none⟩ ⟨[]⟩
      ≠ StateModule.GetPairs emptyStoreModule ⟨"0x2a", none⟩ ⟨[]⟩ := by
  refine ⟨rfl, rfl, ?_⟩
  decide

/-- C5 (amended): for `GetStorage`, `GetStorageHash` and `GetStorageSize`, a
key stored with a zero-length value and an absent key produce the same
externally observed zero-value response with no error (the lookup result
`item` covers both `none` — absent — and `some []` — present but empty,
i.e. every result with `goLen item = 0`). -/
theorem storage_ops_collapse_empty_and_absent (sm : StateModule) (key : String)
    (bh : Option GoHash) (item : Option (List GoByte))
    (res1 : StateStorageResponse) (res2 : StateStorageHashResponse)
    (res3 : StateStorageSizeResponse)
    (h : bh.elim (sm.storageAPI.GetStorage none (hexToBytesOrEmpty key))
      (fun b => sm.storageAPI.GetStorageByBlockHash b (hexToBytesOrEmpty key)) = .ok item)
    (hlen : goLen item = 0) :
    sm.GetStorage ⟨key, bh⟩ res1 = (none, { StorageValue := "" }) ∧
    sm.GetStorageHash ⟨key, bh⟩ res2 = (none, { StorageHash := "" }) ∧
    sm.GetStorageSize ⟨key, bh⟩ res3 = (none, { StorageEntrySize := 0 }) := by
  cases bh <;> simp only [Option.elim] at h <;>
    refine ⟨?_, ?_, ?_⟩ <;>
      simp [StateModule.GetStorage, StateModule.GetStorageHash,
        StateModule.GetStorageSize, h, hlen]

/-- Witness for the amended C5 at a store whose key `0x2a` holds a
zero-length value (`item = some []`). -/
theorem storage_ops_collapse_empty_and_absent_witness :
    StateModule.GetStorage presentEmptyModule ⟨"0x2a", none⟩ ⟨"v"⟩
      = (none, { StorageValue := "" }) ∧
    StateModule.GetStorageHash presentEmptyModule ⟨"0x2a", none⟩ ⟨"h"⟩
      = (none, { StorageHash := "" }) ∧
    StateModule.GetStorageSize presentEmptyModule ⟨"0x2a", none⟩ ⟨7⟩
      = (none, { StorageEntrySize := 0 }) :=
  storage_ops_collapse_empty_and_absent presentEmptyModule "0x2a" none (some [])
    ⟨"v"⟩ ⟨"h"⟩ ⟨7⟩ rfl rfl

/-- C6: `GetMetadata` fetches the encoded blob from the Metadata Provider for
the given block reference and applies the SCALE (length-prefixed
byte-sequence) decode: on success it returns the decoded bytes hex-encoded
with no error; on any blob whose decode fails it returns the decode failure
as the request error. -/
theorem getMetadata_decodes_blob (sm : StateModule) (bh : Option GoHash)
    (res : StateMetadataResponse) (blob : List GoByte)
    (h : sm.coreAPI.GetMetadata bh = .ok blob) :
    sm.GetMetadata ⟨bh⟩ res =
      (match scaleDecodeByteArray blob with
       | .ok decoded => (none, { Metadata := BytesToHex decoded })
       | .error e => (some e, { Metadata := BytesToHex [] })) := by
  cases hd : scaleDecodeByteArray blob <;>
    simp [StateModule.GetMetadata, h, hd]

/-- Witness for C6 at an empty metadata blob, on which the decode fails and
the error is returned. -/
theorem getMetadata_decodes_blob_witness :
    StateModule.GetMetadata emptyMetaModule ⟨none⟩ ⟨"m"⟩
      = (some Err.decodeError, { Metadata := "0x" }) := by
  rw [getMetadata_decodes_blob emptyMetaModule none ⟨"m"⟩ [] rfl]
  rfl

/-- C7: `GetRuntimeVersion` output is independent of the supplied block
reference — two calls that differ only in the reference produce identical
responses, each equal to the call with no reference (the latest version). -/
theorem getRuntimeVersion_ignores_block_reference (sm : StateModule)
    (b1 b2 : Option GoHash) (res : StateRuntimeVersionResponse) :
    sm.GetRuntimeVersion (some ⟨b1⟩) res = sm.GetRuntimeVersion (some ⟨b2⟩) res ∧
    sm.GetRuntimeVersion (some ⟨b1⟩) res = sm.GetRuntimeVersion (some ⟨none⟩) res :=
  ⟨rfl, rfl⟩

/-- C8 counterexample: the "not implemented" operations do *not* return a
result distinguishable from a legitimate empty success — `QueryStorage` and
`SubscribeStorage` return a nil error and the zero-value response, exactly
the shape of a legitimate empty result. -/
theorem unimplemented_ops_zero_value_counterexample :
    StateModule.QueryStorage emptyStoreModule ⟨[], none, none⟩ {} =
      (none, ({} : StorageChangeSetResponse)) ∧
    StateModule.SubscribeStorage emptyStoreModule ⟨[], none, none⟩ {} =
      (none, ({} : StorageChangeSetResponse)) :=
  ⟨rfl, rfl⟩

/-- C8 (amended): each unimplemented operation is an exposed entry point
that, for every input, leaves the response exactly as it received it and
signals success where it has an error return — it never fabricates data, but
its result is indistinguishable from a legitimate empty/zero-value
success. -/
theorem unimplemented_ops_leave_response_unchanged (sm : StateModule)
    (rc : StateCallRequest) (rcs : StateChildStorageRequest)
    (rk : StateStorageKeyRequest) (rq : StateStorageQueryRangeRequest)
    (resc : StateCallResponse) (resk : StateKeysResponse)
    (resd : StateStorageDataResponse) (resh : StateChildStorageResponse)
    (ress : StateChildStorageSizeResponse) (resks : StateStorageKeysResponse)
    (resq resq2 : StorageChangeSetResponse) :
    sm.Call rc resc = resc ∧
    sm.GetChildKeys rcs resk = resk ∧
    sm.GetChildStorage rcs resd = resd ∧
    sm.GetChildStorageHash rcs resh = resh ∧
    sm.GetChildStorageSize rcs ress = ress ∧
    sm.GetKeys rk resks = resks ∧
    sm.QueryStorage rq resq = (none, resq) ∧
    sm.SubscribeStorage rq resq2 = (none, resq2) :=
  ⟨rfl, rfl, rfl, rfl, rfl, rfl, rfl, rfl⟩

/-- C9: `SubscribeRuntimeVersion` forwards a nil request pointer to
`GetRuntimeVersion`, whose dereference of `req.Bhash` is a nil-pointer panic
(modelled `none`) — it does not produce the outcome of a `GetRuntimeVersion`
call with no block reference, which succeeds with the latest version. -/
theorem subscribeRuntimeVersion_nil_request_dereference :
    StateModule.SubscribeRuntimeVersion emptyStoreModule ⟨[], none, none⟩ {} = none ∧
    StateModule.GetRuntimeVersion emptyStoreModule (some ⟨none⟩) {} =
      some (none,
        { SpecName := "node"
          ImplName := "gossamer-node"
          AuthoringVersion := 1
          SpecVersion := 2
          ImplVersion := 3
          Apis := [("0x0102", 1)] }) :=
  ⟨rfl, rfl⟩

/-- The decoded form of a malformed wire hex string is the empty byte key. -/
theorem hexToBytesOrEmpty_eq_nil_of_invalid {s : String}
    (h : isValidWireHex s = false) : hexToBytesOrEmpty s = [] := by
  unfold isValidWireHex at h
  cases hd : decodeWireHex s with
  | none => unfold hexToBytesOrEmpty; rw [hd]; rfl
  | some bs => rw [hd] at h; simp at h

/-- C10: a caller-supplied key that is not valid wire hex does not fail the
request: it degrades to the empty byte key, and each of `GetStorage`,
`GetStorageHash`, `GetStorageSize` and `GetPairs` behaves exactly as if the
empty key (`"0x"`) had been supplied. -/
theorem malformed_key_degrades_to_empty (sm : StateModule) (s : String)
    (bh : Option GoHash) (res1 : StateStorageResponse)
    (res2 : StateStorageHashResponse) (res3 : StateStorageSizeResponse)
    (res4 : StatePairResponse)
    (h : isValidWireHex s = false) :
    hexToBytesOrEmpty s = [] ∧
    sm.GetStorage ⟨s, bh⟩ res1 = sm.GetStorage ⟨"0x", bh⟩ res1 ∧
    sm.GetStorageHash ⟨s, bh⟩ res2 = sm.GetStorageHash ⟨"0x", bh⟩ res2 ∧
    sm.GetStorageSize ⟨s, bh⟩ res3 = sm.GetStorageSize ⟨"0x", bh⟩ res3 ∧
    sm.GetPairs ⟨s, bh⟩ res4 = sm.GetPairs ⟨"0x", bh⟩ res4 := by
  have hs : hexToBytesOrEmpty s = [] := hexToBytesOrEmpty_eq_nil_of_invalid h
  have h0 : hexToBytesOrEmpty "0x" = [] := rfl
  refine ⟨hs, ?_, ?_, ?_, ?_⟩ <;>
    simp [StateModule.GetStorage, StateModule.GetStorageHash,
      StateModule.GetStorageSize, StateModule.GetPairs, hs, h0]

/-- Witness for C10 at the malformed key `"zz"`. -/
theorem malformed_key_degrades_to_empty_witness :
    hexToBytesOrEmpty "zz" = [] ∧
    StateModule.GetStorage emptyStoreModule ⟨"zz", none⟩ ⟨""⟩
      = StateModule.GetStorage emptyStoreModule ⟨"0x", none⟩ ⟨""⟩ ∧
    StateModule.GetStorageHash emptyStoreModule ⟨"zz", none⟩ ⟨""⟩
      = StateModule.GetStorageHash emptyStoreModule ⟨"0x", none⟩ ⟨""⟩ ∧
    StateModule.GetStorageSize emptyStoreModule ⟨"zz", none⟩ ⟨0⟩
      = StateModule.GetStorageSize emptyStoreModule ⟨"0x", none⟩ ⟨0⟩ ∧
    StateModule.GetPairs emptyStoreModule ⟨"zz", none⟩ ⟨[]⟩
      = StateModule.GetPairs emptyStoreModule ⟨"0x", none⟩ ⟨[]⟩ :=
  malformed_key_degrades_to_empty emptyStoreModule "zz" none ⟨""⟩ ⟨""⟩ ⟨0⟩ ⟨[]⟩ rfl
